import Mathlib

/-!
Shallow embedding of the rocSOLVER LU orchestration layer
(gesv-outofplace argument check, workspace planner and template, plus the
getrf / getrs / getri / getri-outofplace top-level impl entry points).

Machine `rocblas_int` values are modelled as unbounded `Int`; the code performs
no arithmetic whose overflow behaviour any verified property depends on.
Device pointers are modelled by their nullness (`Bool` flags), and device
buffers by abstract values threaded through explicit state.
-/

/-- Status codes returned by the library, from the fixed enumeration in the
spec.  `size_query_sentinel` stands for the non-error value returned by
`rocblas_set_optimal_device_memory_size` on the memory-size-query path, and
`continue_status` for `rocblas_status_continue`, the internal-only sentinel. -/
inductive rocblas_status where
  | success
  | invalid_handle
  | invalid_size
  | invalid_pointer
  | memory_error
  | not_implemented
  | continue_status
  | size_query_sentinel
  deriving DecidableEq, Repr

/-- Transpose operation selector (`rocblas_operation`). -/
inductive BlasOperation where
  | op_none
  | op_transpose
  | op_conj_transpose
  deriving DecidableEq, Repr

/-- The pointer-null condition of `rocsolver_gesv_outofplace_argCheck`
(roclapack_gesv_outofplace.hpp line 70): a required pointer is null exactly
when its guarding extent is nonzero.  Each `Bool` flag is `true` when the
corresponding caller pointer is null. -/
def gesvPtrBad (n nrhs batch_count : Int)
    (anull bnull xnull pnull inull : Bool) : Bool :=
  (decide (n ≠ 0) && anull) || (decide (n ≠ 0) && pnull)
    || (decide (nrhs * n ≠ 0) && bnull) || (decide (nrhs * n ≠ 0) && xnull)
    || (decide (batch_count ≠ 0) && inull)

/-- `rocsolver_gesv_outofplace_argCheck` (roclapack_gesv_outofplace.hpp lines
55-73): size checks first, then the memory-size-query short circuit, then the
pointer-null checks.  `isQuery` models `rocblas_is_device_memory_size_query`. -/
def rocsolver_gesv_outofplace_argCheck (isQuery : Bool)
    (n nrhs lda ldb ldx : Int)
    (anull bnull xnull pnull inull : Bool)
    (batch_count : Int) : rocblas_status :=
  if n < 0 ∨ nrhs < 0 ∨ lda < n ∨ ldb < n ∨ ldx < n ∨ batch_count < 0 then
    rocblas_status.invalid_size
  else if isQuery then
    rocblas_status.continue_status
  else if gesvPtrBad n nrhs batch_count anull bnull xnull pnull inull then
    rocblas_status.invalid_pointer
  else
    rocblas_status.continue_status

/-- Byte sizes reported by `rocsolver_getrf_getMemorySize` (nine scratch roles
plus the optimal-memory flag). -/
structure GetrfSizes where
  scalars : Nat
  work1 : Nat
  work2 : Nat
  work3 : Nat
  work4 : Nat
  pivotval : Nat
  pivotidx : Nat
  iipiv : Nat
  iinfo : Nat
  optim : Bool
  deriving DecidableEq, Repr

/-- Byte sizes reported by `rocsolver_getrs_getMemorySize` (four scratch roles
plus the optimal-memory flag). -/
structure GetrsSizes where
  work1 : Nat
  work2 : Nat
  work3 : Nat
  work4 : Nat
  optim : Bool
  deriving DecidableEq, Repr

/-- The full workspace descriptor computed by the gesv-outofplace planner. -/
structure GesvWorkspace where
  size_scalars : Nat
  size_work1 : Nat
  size_work2 : Nat
  size_work3 : Nat
  size_work4 : Nat
  size_pivotval : Nat
  size_pivotidx : Nat
  size_iipiv : Nat
  size_iinfo : Nat
  optim_mem : Bool
  deriving DecidableEq, Repr

/-- `rocsolver_gesv_outofplace_getMemorySize` (roclapack_gesv_outofplace.hpp
lines 77-124).  The sub-planners `rocsolver_getrf_getMemorySize` (called at
shape (n, n, pivot, batch_count)) and `rocsolver_getrs_getMemorySize` (called
at (none, n, nrhs, batch_count)) live in headers not present in the source
tree, so they are parameters here.  Quick return if any of n, nrhs,
batch_count is zero; otherwise the four general work buffers take the
elementwise max of the two sub-planners and the flag is their conjunction,
while the remaining five roles come from the getrf planner alone. -/
def rocsolver_gesv_outofplace_getMemorySize
    (getrfMem : Int → Int → Bool → Int → GetrfSizes)
    (getrsMem : BlasOperation → Int → Int → Int → GetrsSizes)
    (n nrhs batch_count : Int) : GesvWorkspace :=
  if n = 0 ∨ nrhs = 0 ∨ batch_count = 0 then
    ⟨0, 0, 0, 0, 0, 0, 0, 0, 0, true⟩
  else
    let fr := getrfMem n n true batch_count
    let sr := getrsMem BlasOperation.op_none n nrhs batch_count
    ⟨fr.scalars, max fr.work1 sr.work1, max fr.work2 sr.work2,
      max fr.work3 sr.work3, max fr.work4 sr.work4, fr.pivotval, fr.pivotidx,
      fr.iipiv, fr.iinfo, fr.optim && sr.optim⟩

/-- Modelled from the spec: an admissible instance of the missing
`rocsolver_getrf_getMemorySize` at the argument shape used by the gesv
planner.  It obeys the spec quick-return rule (any zero dimension or zero
batch count gives all-zero sizes and optimal memory true) and requests
nonzero scratch for nonzero shapes, as the spec's workspace-planner contract
describes (allocation is needed exactly when no dimension is zero). -/
def getrfMemModel : Int → Int → Bool → Int → GetrfSizes := fun m n _ bc =>
  if m = 0 ∨ n = 0 ∨ bc = 0 then ⟨0, 0, 0, 0, 0, 0, 0, 0, 0, true⟩
  else ⟨24, 64, 64, 64, 64, 8, 4, 8, 4, true⟩

/-- Modelled from the spec: an admissible instance of the missing
`rocsolver_getrs_getMemorySize`, obeying the same quick-return rule. -/
def getrsMemModel : BlasOperation → Int → Int → Int → GetrsSizes :=
  fun _ n nrhs bc =>
    if n = 0 ∨ nrhs = 0 ∨ bc = 0 then ⟨0, 0, 0, 0, true⟩
    else ⟨32, 32, 32, 32, true⟩

/-- C3: degenerate shapes make the gesv-outofplace planner report zero for
every byte size and true for the optimal-memory flag, for any sub-planners
(which it does not even consult on this path). -/
theorem gesv_getMemorySize_quick_return
    (getrfMem : Int → Int → Bool → Int → GetrfSizes)
    (getrsMem : BlasOperation → Int → Int → Int → GetrsSizes)
    (n nrhs batch_count : Int)
    (hdeg : n = 0 ∨ nrhs = 0 ∨ batch_count = 0) :
    rocsolver_gesv_outofplace_getMemorySize getrfMem getrsMem n nrhs batch_count
      = ⟨0, 0, 0, 0, 0, 0, 0, 0, 0, true⟩ := by
  unfold rocsolver_gesv_outofplace_getMemorySize
  rw [if_pos hdeg]

/-- Witness for C3 at the concrete shape (0, 5, 2). -/
theorem gesv_getMemorySize_quick_return_witness :
    rocsolver_gesv_outofplace_getMemorySize getrfMemModel getrsMemModel 0 5 2
      = ⟨0, 0, 0, 0, 0, 0, 0, 0, 0, true⟩ :=
  gesv_getMemorySize_quick_return getrfMemModel getrsMemModel 0 5 2 (Or.inl rfl)

/-- C4: whenever a size condition holds, the gesv-outofplace argument check
returns invalid_size, regardless of query mode and of any simultaneous
null-required-pointer condition: the size check fires first. -/
theorem gesv_argCheck_size_before_pointer (isQuery : Bool)
    (n nrhs lda ldb ldx batch_count : Int)
    (anull bnull xnull pnull inull : Bool)
    (hsize : n < 0 ∨ nrhs < 0 ∨ lda < n ∨ ldb < n ∨ ldx < n ∨ batch_count < 0)
    (hptr : gesvPtrBad n nrhs batch_count anull bnull xnull pnull inull = true) :
    rocsolver_gesv_outofplace_argCheck isQuery n nrhs lda ldb ldx
        anull bnull xnull pnull inull batch_count
      = rocblas_status.invalid_size := by
  unfold rocsolver_gesv_outofplace_argCheck
  rw [if_pos hsize]

/-- Witness for C4: n = 2, lda = 1 (size violation) with a null A pointer
(pointer violation) still yields invalid_size. -/
theorem gesv_argCheck_size_before_pointer_witness :
    rocsolver_gesv_outofplace_argCheck false 2 1 1 2 2 true false false false false 1
      = rocblas_status.invalid_size :=
  gesv_argCheck_size_before_pointer false 2 1 1 2 2 1 true false false false false
    (by decide) (by decide)

/-- C10: outside query mode, with batch_count > 0 and a null info pointer, the
argument check returns invalid_pointer even when n = 0 and nrhs = 0 (and the
size checks pass): the info pointer check fires before any zero-size quick
return, which lives in the template, not here. -/
theorem gesv_argCheck_null_info_zero_size
    (lda ldb ldx batch_count : Int)
    (anull bnull xnull pnull : Bool)
    (hlda : 0 ≤ lda) (hldb : 0 ≤ ldb) (hldx : 0 ≤ ldx)
    (hbc : 0 < batch_count) :
    rocsolver_gesv_outofplace_argCheck false 0 0 lda ldb ldx
        anull bnull xnull pnull true batch_count
      = rocblas_status.invalid_pointer := by
  unfold rocsolver_gesv_outofplace_argCheck
  rw [if_neg (by omega)]
  have hb : batch_count ≠ 0 := by omega
  simp [gesvPtrBad, hb]

/-- Witness for C10 at lda = ldb = ldx = 1, batch_count = 3, all data pointers
non-null except info. -/
theorem gesv_argCheck_null_info_zero_size_witness :
    rocsolver_gesv_outofplace_argCheck false 0 0 1 1 1 false false false false true 3
      = rocblas_status.invalid_pointer :=
  gesv_argCheck_null_info_zero_size 1 1 1 3 false false false false
    (by decide) (by decide) (by decide) (by decide)

/-- Device state visible to the gesv-outofplace template: the caller's A, B
and X buffers (abstract contents of type α), the pivot vector and the info
array. -/
structure GesvState (α : Type) where
  A : α
  B : α
  X : α
  ipiv : List Int
  info : List Int
  deriving DecidableEq, Repr

/-- Result of a getrf factorization step: the factored matrix contents, the
pivot vector and the per-instance info values. -/
structure GetrfOut (α : Type) where
  A : α
  ipiv : List Int
  info : List Int
  deriving DecidableEq, Repr

/-- Modelled from the spec: the device operations invoked by
`rocsolver_gesv_outofplace_template` whose definitions
(`rocsolver_getrf_template`, the `copy_mat` kernel and
`rocsolver_getrs_template`) are in headers not present in the source tree.
Per the spec, getrf factors A in place writing only A, ipiv and info;
copy_mat reads B and writes X; getrs reads the factors and pivots and solves
in place in its right-hand-side buffer (here X). -/
structure GesvOps (α : Type) where
  fgetrf : α → GetrfOut α
  fcopy : α → α → α
  fgetrs : α → List Int → α → α

/-- The `reset_info` kernel: set the first `bc` info entries to 0, leaving
the rest unchanged. -/
def resetInfo : Nat → List Int → List Int
  | 0, l => l
  | _ + 1, [] => []
  | bc + 1, _ :: t => 0 :: resetInfo bc t

/-- `rocsolver_gesv_outofplace_template` (roclapack_gesv_outofplace.hpp lines
127-197): quick return on batch_count = 0; reset info to 0 for every
instance; quick return on n = 0 or nrhs = 0; factor A via getrf; copy B to X;
solve into X via getrs; return success. -/
def rocsolver_gesv_outofplace_template {α : Type} (ops : GesvOps α)
    (n nrhs batch_count : Int) (s : GesvState α) :
    rocblas_status × GesvState α :=
  if batch_count = 0 then
    (rocblas_status.success, s)
  else
    let s1 : GesvState α := { s with info := resetInfo batch_count.toNat s.info }
    if n = 0 ∨ nrhs = 0 then
      (rocblas_status.success, s1)
    else
      let fr := ops.fgetrf s1.A
      let s2 : GesvState α := { s1 with A := fr.A, ipiv := fr.ipiv, info := fr.info }
      let s3 : GesvState α := { s2 with X := ops.fcopy s2.B s2.X }
      let s4 : GesvState α := { s3 with X := ops.fgetrs s3.A s3.ipiv s3.X }
      (rocblas_status.success, s4)

/-- Entries below `bc` of `resetInfo bc info` are 0 (when in range). -/
theorem resetInfo_getD_eq_zero (info : List Int) (bc i : Nat)
    (hi : i < bc) (hl : i < info.length) :
    (resetInfo bc info).getD i 1 = 0 := by
  induction info generalizing bc i with
  | nil => simp at hl
  | cons h t ih =>
    cases bc with
    | zero => omega
    | succ bc =>
      cases i with
      | zero => rfl
      | succ i =>
        simpa [resetInfo, List.getD] using
          ih bc i (by omega) (by simpa using hl)

/-- C1: on the non-degenerate path the template factors A in place via getrf,
copies B into X, and solves into X via getrs, in that order; afterwards A
holds the factored contents, ipiv the pivots, X the solution of the copied
right-hand side, and the caller's B buffer is unchanged.  The statement holds
for every choice of the device operations, so the result's B component never
depends on anything written during the call: B is only read. -/
theorem gesv_outofplace_template_factor_copy_solve {α : Type}
    (ops : GesvOps α) (n nrhs batch_count : Int) (s : GesvState α)
    (hn : 0 < n) (hr : 0 < nrhs) (hb : 0 < batch_count) :
    (rocsolver_gesv_outofplace_template ops n nrhs batch_count s).1
        = rocblas_status.success
    ∧ (rocsolver_gesv_outofplace_template ops n nrhs batch_count s).2.B = s.B
    ∧ (rocsolver_gesv_outofplace_template ops n nrhs batch_count s).2.A
        = (ops.fgetrf s.A).A
    ∧ (rocsolver_gesv_outofplace_template ops n nrhs batch_count s).2.ipiv
        = (ops.fgetrf s.A).ipiv
    ∧ (rocsolver_gesv_outofplace_template ops n nrhs batch_count s).2.X
        = ops.fgetrs (ops.fgetrf s.A).A (ops.fgetrf s.A).ipiv
            (ops.fcopy s.B s.X) := by
  have hb' : batch_count ≠ 0 := by omega
  have hnr : ¬(n = 0 ∨ nrhs = 0) := by omega
  unfold rocsolver_gesv_outofplace_template
  rw [if_neg hb', if_neg hnr]
  exact ⟨rfl, rfl, rfl, rfl, rfl⟩

/-- Witness for C1 with α = List Int, concrete operations and shape
(n, nrhs, batch_count) = (1, 1, 1). -/
theorem gesv_outofplace_template_factor_copy_solve_witness :
    (rocsolver_gesv_outofplace_template
        ⟨fun a => ⟨a ++ [7], [1], [0]⟩, fun b _ => b, fun _ _ x => x ++ [9]⟩
        1 1 1 (⟨[5], [6], [0], [], [3]⟩ : GesvState (List Int))).1
      = rocblas_status.success
    ∧ (rocsolver_gesv_outofplace_template
        ⟨fun a => ⟨a ++ [7], [1], [0]⟩, fun b _ => b, fun _ _ x => x ++ [9]⟩
        1 1 1 (⟨[5], [6], [0], [], [3]⟩ : GesvState (List Int))).2.B = [6] := by
  have h := gesv_outofplace_template_factor_copy_solve
    (α := List Int)
    ⟨fun a => ⟨a ++ [7], [1], [0]⟩, fun b _ => b, fun _ _ x => x ++ [9]⟩
    1 1 1 ⟨[5], [6], [0], [], [3]⟩ (by decide) (by decide) (by decide)
  exact ⟨h.1, h.2.1⟩

/-- C6: with n = 0 or nrhs = 0 or batch_count = 0 (and nonnegative sizes),
the template returns success, resets the info entry of every batch instance
to 0, and leaves A, B, X and ipiv untouched; the conclusion holds for every
choice of device operations, so no element of A, B or X is consulted. -/
theorem gesv_outofplace_template_quick_return {α : Type}
    (ops : GesvOps α) (n nrhs batch_count : Int) (s : GesvState α)
    (hn : 0 ≤ n) (hr : 0 ≤ nrhs) (hb : 0 ≤ batch_count)
    (hdeg : n = 0 ∨ nrhs = 0 ∨ batch_count = 0)
    (hlen : batch_count.toNat ≤ s.info.length) :
    (rocsolver_gesv_outofplace_template ops n nrhs batch_count s).1
        = rocblas_status.success
    ∧ (rocsolver_gesv_outofplace_template ops n nrhs batch_count s).2.A = s.A
    ∧ (rocsolver_gesv_outofplace_template ops n nrhs batch_count s).2.B = s.B
    ∧ (rocsolver_gesv_outofplace_template ops n nrhs batch_count s).2.X = s.X
    ∧ (rocsolver_gesv_outofplace_template ops n nrhs batch_count s).2.ipiv
        = s.ipiv
    ∧ ∀ i : Nat, i < batch_count.toNat →
        (rocsolver_gesv_outofplace_template ops n nrhs batch_count s).2.info.getD
            i 1 = 0 := by
  unfold rocsolver_gesv_outofplace_template
  by_cases hbz : batch_count = 0
  · rw [if_pos hbz]
    refine ⟨rfl, rfl, rfl, rfl, rfl, ?_⟩
    intro i hi
    omega
  · rw [if_neg hbz]
    have hnr : n = 0 ∨ nrhs = 0 := by
      rcases hdeg with h | h | h
      · exact Or.inl h
      · exact Or.inr h
      · exact absurd h hbz
    rw [if_pos hnr]
    refine ⟨rfl, rfl, rfl, rfl, rfl, ?_⟩
    intro i hi
    exact resetInfo_getD_eq_zero s.info batch_count.toNat i hi (by omega)

/-- Witness for C6 at shape (0, 2, 2) with a stale nonzero info array. -/
theorem gesv_outofplace_template_quick_return_witness :
    (rocsolver_gesv_outofplace_template
        ⟨fun a => ⟨a, [], []⟩, fun b _ => b, fun _ _ x => x⟩
        0 2 2 ⟨[1], [2], [3], [], [4, 5]⟩).2.info.getD 0 1 = 0
    ∧ (rocsolver_gesv_outofplace_template
        ⟨fun a => ⟨a, [], []⟩, fun b _ => b, fun _ _ x => x⟩
        0 2 2 ⟨[1], [2], [3], [], [4, 5]⟩).2.info.getD 1 1 = 0 := by
  have h := gesv_outofplace_template_quick_return
    (α := List Int)
    ⟨fun a => ⟨a, [], []⟩, fun b _ => b, fun _ _ x => x⟩
    0 2 2 ⟨[1], [2], [3], [], [4, 5]⟩ (by decide) (by decide) (by decide)
    (Or.inl rfl) (by decide)
  exact ⟨h.2.2.2.2.2 0 (by decide), h.2.2.2.2.2 1 (by decide)⟩

/-- C2 counterexample: at shape (n, nrhs, batch_count) = (2, 0, 1) the gesv
planner quick-returns 0 for work1, but the getrf sub-planner is called at
shape (2, 2, 1) — no dimension zero — and requires nonzero scratch, so the
claimed elementwise-max identity fails for this shape. -/
theorem gesv_getMemorySize_max_counterexample :
    ¬ ((rocsolver_gesv_outofplace_getMemorySize getrfMemModel getrsMemModel
          2 0 1).size_work1
        = max (getrfMemModel 2 2 true 1).work1
            (getrsMemModel BlasOperation.op_none 2 0 1).work1) := by
  decide

/-- The spec-modelled getrf sub-planner obeys the spec quick-return rule. -/
theorem getrfMemModel_quick_return (m n : Int) (p : Bool) (bc : Int)
    (h : m = 0 ∨ n = 0 ∨ bc = 0) :
    getrfMemModel m n p bc = ⟨0, 0, 0, 0, 0, 0, 0, 0, 0, true⟩ := by
  unfold getrfMemModel
  rw [if_pos h]

/-- The spec-modelled getrs sub-planner obeys the spec quick-return rule. -/
theorem getrsMemModel_quick_return (tr : BlasOperation) (n nrhs bc : Int)
    (h : n = 0 ∨ nrhs = 0 ∨ bc = 0) :
    getrsMemModel tr n nrhs bc = ⟨0, 0, 0, 0, true⟩ := by
  unfold getrsMemModel
  rw [if_pos h]

/-- C2 (amended): for sub-planners obeying the spec quick-return rule (any
zero dimension or zero batch count gives all-zero sizes and an optimal flag
of true), and for every shape except those with nrhs = 0 while n and
batch_count are both nonzero, each of the four general work-buffer sizes
computed by the gesv-outofplace planner is the elementwise max of the
getrf(n, n, pivot) and getrs(none, n, nrhs) requirements, and the
optimal-memory flag is the conjunction of the two sub-planner flags.  Only
the excluded region fails: there the gesv planner quick-returns zeros while
the getrf sub-planner is consulted at (n, n, batch_count) with no zero
dimension. -/
theorem gesv_getMemorySize_max_composition
    (getrfMem : Int → Int → Bool → Int → GetrfSizes)
    (getrsMem : BlasOperation → Int → Int → Int → GetrsSizes)
    (n nrhs batch_count : Int)
    (hfq : ∀ (m nn : Int) (p : Bool) (bc : Int), m = 0 ∨ nn = 0 ∨ bc = 0 →
      getrfMem m nn p bc = ⟨0, 0, 0, 0, 0, 0, 0, 0, 0, true⟩)
    (hsq : ∀ (tr : BlasOperation) (nn nr bc : Int), nn = 0 ∨ nr = 0 ∨ bc = 0 →
      getrsMem tr nn nr bc = ⟨0, 0, 0, 0, true⟩)
    (hshape : ¬(nrhs = 0 ∧ n ≠ 0 ∧ batch_count ≠ 0)) :
    (rocsolver_gesv_outofplace_getMemorySize getrfMem getrsMem n nrhs
          batch_count).size_work1
        = max (getrfMem n n true batch_count).work1
            (getrsMem BlasOperation.op_none n nrhs batch_count).work1
    ∧ (rocsolver_gesv_outofplace_getMemorySize getrfMem getrsMem n nrhs
          batch_count).size_work2
        = max (getrfMem n n true batch_count).work2
            (getrsMem BlasOperation.op_none n nrhs batch_count).work2
    ∧ (rocsolver_gesv_outofplace_getMemorySize getrfMem getrsMem n nrhs
          batch_count).size_work3
        = max (getrfMem n n true batch_count).work3
            (getrsMem BlasOperation.op_none n nrhs batch_count).work3
    ∧ (rocsolver_gesv_outofplace_getMemorySize getrfMem getrsMem n nrhs
          batch_count).size_work4
        = max (getrfMem n n true batch_count).work4
            (getrsMem BlasOperation.op_none n nrhs batch_count).work4
    ∧ (rocsolver_gesv_outofplace_getMemorySize getrfMem getrsMem n nrhs
          batch_count).optim_mem
        = ((getrfMem n n true batch_count).optim
            && (getrsMem BlasOperation.op_none n nrhs batch_count).optim) := by
  unfold rocsolver_gesv_outofplace_getMemorySize
  by_cases hdeg : n = 0 ∨ nrhs = 0 ∨ batch_count = 0
  · have hf0 : getrfMem n n true batch_count = ⟨0, 0, 0, 0, 0, 0, 0, 0, 0, true⟩ := by
      rcases hdeg with h | h | h
      · exact hfq n n true batch_count (Or.inl h)
      · have h2 : n = 0 ∨ batch_count = 0 := by tauto
        rcases h2 with h2 | h2
        · exact hfq n n true batch_count (Or.inl h2)
        · exact hfq n n true batch_count (Or.inr (Or.inr h2))
      · exact hfq n n true batch_count (Or.inr (Or.inr h))
    have hs0 : getrsMem BlasOperation.op_none n nrhs batch_count
        = ⟨0, 0, 0, 0, true⟩ :=
      hsq BlasOperation.op_none n nrhs batch_count hdeg
    rw [if_pos hdeg, hf0, hs0]
    simp
  · rw [if_neg hdeg]
    exact ⟨rfl, rfl, rfl, rfl, rfl⟩

/-- Witness for amended C2 at shape (2, 3, 1) with the spec-modelled
sub-planners, which obey the quick-return hypotheses. -/
theorem gesv_getMemorySize_max_composition_witness :
    (rocsolver_gesv_outofplace_getMemorySize getrfMemModel getrsMemModel
          2 3 1).size_work1
        = max (getrfMemModel 2 2 true 1).work1
            (getrsMemModel BlasOperation.op_none 2 3 1).work1
    ∧ (rocsolver_gesv_outofplace_getMemorySize getrfMemModel getrsMemModel
          2 3 1).optim_mem
        = ((getrfMemModel 2 2 true 1).optim
            && (getrsMemModel BlasOperation.op_none 2 3 1).optim) := by
  have h := gesv_getMemorySize_max_composition getrfMemModel getrsMemModel 2 3 1
    getrfMemModel_quick_return getrsMemModel_quick_return (by decide)
  exact ⟨h.1, h.2.2.2.2⟩

/-- Observable outcome of a top-level impl entry point: the returned status,
the byte sizes reported to the handle on the memory-size-query path
(`reported`, empty when that path is not taken), the byte sizes requested
from `rocblas_device_malloc` (`requested`, empty when allocation is never
attempted), and whether the algorithm template was invoked (`executed`). -/
structure ImplOutcome where
  status : rocblas_status
  reported : List Nat
  requested : List Nat
  executed : Bool
  deriving DecidableEq, Repr

/-- Modelled from the spec: `rocsolver_getf2_getrf_argCheck` (header not in
the source tree).  Per the uniform call protocol: size checks (negative
dimensions, lda < m) first, then the memory-size-query short circuit, then
the required-pointer checks. -/
def rocsolver_getf2_getrf_argCheck (isQuery : Bool) (m n lda : Int)
    (anull pnull inull : Bool) (pivot : Bool) : rocblas_status :=
  if m < 0 ∨ n < 0 ∨ lda < m then
    rocblas_status.invalid_size
  else if isQuery then
    rocblas_status.continue_status
  else if (decide (m * n ≠ 0) && anull)
      || (decide (m * n ≠ 0) && pivot && pnull) || inull then
    rocblas_status.invalid_pointer
  else
    rocblas_status.continue_status

/-- The nine getrf byte sizes in the order they are handed to
`rocblas_set_optimal_device_memory_size` and `rocblas_device_malloc`
(roclapack_getrf.cpp lines 80-88). -/
def getrfSizesList (z : GetrfSizes) : List Nat :=
  [z.scalars, z.work1, z.work2, z.work3, z.work4, z.pivotval, z.pivotidx,
    z.iipiv, z.iinfo]

/-- `rocsolver_getrf_impl` (roclapack_getrf.cpp lines 33-110): null-handle
check, argument check, workspace sizing at batch_count = 1, memory-size-query
short circuit, allocation (`allocOk` models whether `rocblas_device_malloc`
succeeds), then execution of `rocsolver_getrf_template` (not in the source
tree, passed as the parameter `tmpl` acting on abstract device state σ). -/
def rocsolver_getrf_impl {σ : Type} (handleNull isQuery allocOk : Bool)
    (m n lda : Int) (anull pnull inull pivot : Bool)
    (getrfMem : Int → Int → Bool → Int → Int → GetrfSizes)
    (tmpl : σ → rocblas_status × σ) (s : σ) : ImplOutcome × σ :=
  if handleNull then
    (⟨rocblas_status.invalid_handle, [], [], false⟩, s)
  else
    let st := rocsolver_getf2_getrf_argCheck isQuery m n lda anull pnull inull pivot
    if st ≠ rocblas_status.continue_status then
      (⟨st, [], [], false⟩, s)
    else
      let sizes := getrfSizesList (getrfMem m n pivot 1 lda)
      if isQuery then
        (⟨rocblas_status.size_query_sentinel, sizes, [], false⟩, s)
      else if allocOk = false then
        (⟨rocblas_status.memory_error, [], sizes, false⟩, s)
      else
        let r := tmpl s
        (⟨r.1, [], sizes, true⟩, r.2)

/-- `rocsolver_getrs_strided_batched_impl` (roclapack_getrs_strided_batched.cpp
lines 33-96): null-handle check, argument check (the checker
`rocsolver_getrs_argCheck` is in a header not in the source tree, so its
result is the parameter `argCk`), workspace sizing (opaque `sizes`),
memory-size-query short circuit, allocation, then execution of
`rocsolver_getrs_template`. -/
def rocsolver_getrs_strided_batched_impl {σ : Type} (handleNull : Bool)
    (argCk : rocblas_status) (isQuery allocOk : Bool) (sizes : List Nat)
    (tmpl : σ → rocblas_status × σ) (s : σ) : ImplOutcome × σ :=
  if handleNull then
    (⟨rocblas_status.invalid_handle, [], [], false⟩, s)
  else if argCk ≠ rocblas_status.continue_status then
    (⟨argCk, [], [], false⟩, s)
  else if isQuery then
    (⟨rocblas_status.size_query_sentinel, sizes, [], false⟩, s)
  else if allocOk = false then
    (⟨rocblas_status.memory_error, [], sizes, false⟩, s)
  else
    let r := tmpl s
    (⟨r.1, [], sizes, true⟩, r.2)

/-- `rocsolver_getri_impl` (roclapack_getri.cpp lines 33-96): the same
null-handle / argument-check / sizing / query / allocation / execution
sequence, with the missing checker result and planner output as parameters. -/
def rocsolver_getri_impl {σ : Type} (handleNull : Bool)
    (argCk : rocblas_status) (isQuery allocOk : Bool) (sizes : List Nat)
    (tmpl : σ → rocblas_status × σ) (s : σ) : ImplOutcome × σ :=
  if handleNull then
    (⟨rocblas_status.invalid_handle, [], [], false⟩, s)
  else if argCk ≠ rocblas_status.continue_status then
    (⟨argCk, [], [], false⟩, s)
  else if isQuery then
    (⟨rocblas_status.size_query_sentinel, sizes, [], false⟩, s)
  else if allocOk = false then
    (⟨rocblas_status.memory_error, [], sizes, false⟩, s)
  else
    let r := tmpl s
    (⟨r.1, [], sizes, true⟩, r.2)

/-- `rocsolver_getri_outofplace_strided_batched_impl`
(roclapack_getri_outofplace_strided_batched.cpp lines 33-93): the same
sequence again for the out-of-place inversion entry point. -/
def rocsolver_getri_outofplace_strided_batched_impl {σ : Type}
    (handleNull : Bool) (argCk : rocblas_status) (isQuery allocOk : Bool)
    (sizes : List Nat) (tmpl : σ → rocblas_status × σ) (s : σ) :
    ImplOutcome × σ :=
  if handleNull then
    (⟨rocblas_status.invalid_handle, [], [], false⟩, s)
  else if argCk ≠ rocblas_status.continue_status then
    (⟨argCk, [], [], false⟩, s)
  else if isQuery then
    (⟨rocblas_status.size_query_sentinel, sizes, [], false⟩, s)
  else if allocOk = false then
    (⟨rocblas_status.memory_error, [], sizes, false⟩, s)
  else
    let r := tmpl s
    (⟨r.1, [], sizes, true⟩, r.2)

/-- The ten gesv workspace byte sizes as a list, in planner order. -/
def gesvSizesList (w : GesvWorkspace) : List Nat :=
  [w.size_scalars, w.size_work1, w.size_work2, w.size_work3, w.size_work4,
    w.size_pivotval, w.size_pivotidx, w.size_iipiv, w.size_iinfo]

/-- Modelled from the spec: the gesv-outofplace top-level entry point is not
among the source files (only its argument checker, planner and template are);
per the uniform call protocol it checks the handle, runs
`rocsolver_gesv_outofplace_argCheck`, computes sizes via
`rocsolver_gesv_outofplace_getMemorySize`, reports them on the query path,
allocates, then runs `rocsolver_gesv_outofplace_template`. -/
def rocsolver_gesv_outofplace_impl {α : Type} (handleNull isQuery allocOk : Bool)
    (n nrhs lda ldb ldx batch_count : Int)
    (anull bnull xnull pnull inull : Bool)
    (getrfMem : Int → Int → Bool → Int → GetrfSizes)
    (getrsMem : BlasOperation → Int → Int → Int → GetrsSizes)
    (ops : GesvOps α) (s : GesvState α) : ImplOutcome × GesvState α :=
  if handleNull then
    (⟨rocblas_status.invalid_handle, [], [], false⟩, s)
  else
    let st := rocsolver_gesv_outofplace_argCheck isQuery n nrhs lda ldb ldx
      anull bnull xnull pnull inull batch_count
    if st ≠ rocblas_status.continue_status then
      (⟨st, [], [], false⟩, s)
    else
      let sizes := gesvSizesList
        (rocsolver_gesv_outofplace_getMemorySize getrfMem getrsMem n nrhs
          batch_count)
      if isQuery then
        (⟨rocblas_status.size_query_sentinel, sizes, [], false⟩, s)
      else if allocOk = false then
        (⟨rocblas_status.memory_error, [], sizes, false⟩, s)
      else
        let r := rocsolver_gesv_outofplace_template ops n nrhs batch_count s
        (⟨r.1, [], sizes, true⟩, r.2)

/-- C5: in memory-size-query mode with sizes valid, getrf_impl reports the
planner's byte sizes and returns the query sentinel without allocating and
without executing, for every nullness of A/ipiv/info; and the
gesv-outofplace argument check likewise returns continue in query mode for
every pointer nullness once its size checks pass. -/
theorem getrf_impl_query_mode {σ : Type} (allocOk : Bool) (m n lda : Int)
    (anull pnull inull pivot : Bool)
    (getrfMem : Int → Int → Bool → Int → Int → GetrfSizes)
    (tmpl : σ → rocblas_status × σ) (s : σ)
    (hm : 0 ≤ m) (hn : 0 ≤ n) (hlda : m ≤ lda)
    (gn gnrhs glda gldb gldx gbc : Int)
    (ganull gbnull gxnull gpnull ginull : Bool)
    (hgn : 0 ≤ gn) (hgr : 0 ≤ gnrhs) (hga : gn ≤ glda) (hgb : gn ≤ gldb)
    (hgx : gn ≤ gldx) (hgc : 0 ≤ gbc) :
    (rocsolver_getrf_impl false true allocOk m n lda anull pnull inull pivot
          getrfMem tmpl s).1.status = rocblas_status.size_query_sentinel
    ∧ (rocsolver_getrf_impl false true allocOk m n lda anull pnull inull pivot
          getrfMem tmpl s).1.reported = getrfSizesList (getrfMem m n pivot 1 lda)
    ∧ (rocsolver_getrf_impl false true allocOk m n lda anull pnull inull pivot
          getrfMem tmpl s).1.requested = []
    ∧ (rocsolver_getrf_impl false true allocOk m n lda anull pnull inull pivot
          getrfMem tmpl s).1.executed = false
    ∧ (rocsolver_getrf_impl false true allocOk m n lda anull pnull inull pivot
          getrfMem tmpl s).2 = s
    ∧ rocsolver_gesv_outofplace_argCheck true gn gnrhs glda gldb gldx
          ganull gbnull gxnull gpnull ginull gbc
        = rocblas_status.continue_status := by
  have hck : rocsolver_getf2_getrf_argCheck true m n lda anull pnull inull pivot
      = rocblas_status.continue_status := by
    unfold rocsolver_getf2_getrf_argCheck
    rw [if_neg (by omega)]
    simp
  refine ⟨?_, ?_, ?_, ?_, ?_, ?_⟩
  all_goals
    first
    | simp [rocsolver_getrf_impl, hck]
    | (unfold rocsolver_gesv_outofplace_argCheck
       rw [if_neg (by omega)]
       simp)

/-- Witness for C5 at m = n = 2, lda = 3, null A/ipiv/info pointers, and a
gesv shape (1, 1, 1, 1, 1, 1) with all pointers null. -/
theorem getrf_impl_query_mode_witness :
    (rocsolver_getrf_impl false true false 2 2 3 true true true true
          (fun m n _ _ lda => ⟨m.toNat, n.toNat, lda.toNat, 0, 0, 0, 0, 0, 0, true⟩)
          (fun s : Nat => (rocblas_status.success, s + 1)) 5).1.status
        = rocblas_status.size_query_sentinel
    ∧ (rocsolver_getrf_impl false true false 2 2 3 true true true true
          (fun m n _ _ lda => ⟨m.toNat, n.toNat, lda.toNat, 0, 0, 0, 0, 0, 0, true⟩)
          (fun s : Nat => (rocblas_status.success, s + 1)) 5).2 = 5
    ∧ rocsolver_gesv_outofplace_argCheck true 1 1 1 1 1 true true true true true 1
        = rocblas_status.continue_status := by
  have h := getrf_impl_query_mode (σ := Nat) false 2 2 3 true true true true
    (fun m n _ _ lda => ⟨m.toNat, n.toNat, lda.toNat, 0, 0, 0, 0, 0, 0, true⟩)
    (fun s => (rocblas_status.success, s + 1)) 5
    (by decide) (by decide) (by decide)
    1 1 1 1 1 1 true true true true true
    (by decide) (by decide) (by decide) (by decide) (by decide) (by decide)
  exact ⟨h.1, h.2.2.2.2.1, h.2.2.2.2.2⟩

/-- C7: the byte sizes reported on the memory-size-query path equal the byte
sizes requested from the allocator on the execution path for the same shape,
for both the getrf entry point and the (spec-modelled) gesv-outofplace entry
point: the workspace planner is a pure function of the shape, so the two
phases of the query-then-allocate protocol agree. -/
theorem planner_query_exec_consistent {σ τ α : Type}
    (m n lda : Int) (pivot aok1 aok2 : Bool) (anull pnull inull : Bool)
    (f : Int → Int → Bool → Int → Int → GetrfSizes)
    (tm1 : σ → rocblas_status × σ) (tm2 : τ → rocblas_status × τ)
    (s1 : σ) (s2 : τ)
    (hm : 0 ≤ m) (hn : 0 ≤ n) (hlda : m ≤ lda)
    (gn gnrhs glda gldb gldx gbc : Int) (gaok1 gaok2 : Bool)
    (ganull gbnull gxnull gpnull ginull : Bool)
    (gf : Int → Int → Bool → Int → GetrfSizes)
    (gg : BlasOperation → Int → Int → Int → GetrsSizes)
    (ops : GesvOps α) (gs1 gs2 : GesvState α)
    (hgn : 0 ≤ gn) (hgr : 0 ≤ gnrhs) (hga : gn ≤ glda) (hgb : gn ≤ gldb)
    (hgx : gn ≤ gldx) (hgc : 0 ≤ gbc) :
    (rocsolver_getrf_impl false true aok1 m n lda anull pnull inull pivot
          f tm1 s1).1.reported
      = (rocsolver_getrf_impl false false aok2 m n lda false false false pivot
          f tm2 s2).1.requested
    ∧ (rocsolver_gesv_outofplace_impl false true gaok1 gn gnrhs glda gldb gldx
          gbc ganull gbnull gxnull gpnull ginull gf gg ops gs1).1.reported
      = (rocsolver_gesv_outofplace_impl false false gaok2 gn gnrhs glda gldb
          gldx gbc false false false false false gf gg ops gs2).1.requested := by
  have hck1 : rocsolver_getf2_getrf_argCheck true m n lda anull pnull inull pivot
      = rocblas_status.continue_status := by
    unfold rocsolver_getf2_getrf_argCheck
    rw [if_neg (by omega)]
    simp
  have hck2 : rocsolver_getf2_getrf_argCheck false m n lda false false false pivot
      = rocblas_status.continue_status := by
    unfold rocsolver_getf2_getrf_argCheck
    rw [if_neg (by omega)]
    simp
  have hgck1 : rocsolver_gesv_outofplace_argCheck true gn gnrhs glda gldb gldx
      ganull gbnull gxnull gpnull ginull gbc = rocblas_status.continue_status := by
    unfold rocsolver_gesv_outofplace_argCheck
    rw [if_neg (by omega)]
    simp
  have hgck2 : rocsolver_gesv_outofplace_argCheck false gn gnrhs glda gldb gldx
      false false false false false gbc = rocblas_status.continue_status := by
    unfold rocsolver_gesv_outofplace_argCheck
    rw [if_neg (by omega)]
    simp [gesvPtrBad]
  constructor
  · cases aok2 <;> simp [rocsolver_getrf_impl, hck1, hck2]
  · cases gaok2 <;>
      simp [rocsolver_gesv_outofplace_impl, hgck1, hgck2]

/-- Witness for C7 with concrete shapes and planners on both entry points. -/
theorem planner_query_exec_consistent_witness :
    (rocsolver_getrf_impl false true true 2 2 2 false false false true
          (fun _ _ _ _ _ => ⟨1, 2, 3, 4, 5, 6, 7, 8, 9, true⟩)
          (fun s : Nat => (rocblas_status.success, s)) 0).1.reported
      = (rocsolver_getrf_impl false false false 2 2 2 false false false true
          (fun _ _ _ _ _ => ⟨1, 2, 3, 4, 5, 6, 7, 8, 9, true⟩)
          (fun s : Nat => (rocblas_status.success, s)) 0).1.requested
    ∧ (rocsolver_gesv_outofplace_impl false true true 2 3 2 2 2 1
          false false false false false getrfMemModel getrsMemModel
          ⟨fun a => ⟨a, [], []⟩, fun b _ => b, fun _ _ x => x⟩
          (⟨[1], [2], [3], [], [0]⟩ : GesvState (List Int))).1.reported
      = (rocsolver_gesv_outofplace_impl false false true 2 3 2 2 2 1
          false false false false false getrfMemModel getrsMemModel
          ⟨fun a => ⟨a, [], []⟩, fun b _ => b, fun _ _ x => x⟩
          (⟨[1], [2], [3], [], [0]⟩ : GesvState (List Int))).1.requested := by
  have h := planner_query_exec_consistent (σ := Nat) (τ := Nat) 2 2 2 true true
    false false false false
    (fun _ _ _ _ _ => ⟨1, 2, 3, 4, 5, 6, 7, 8, 9, true⟩)
    (fun s => (rocblas_status.success, s)) (fun s => (rocblas_status.success, s))
    0 0 (by decide) (by decide) (by decide)
    2 3 2 2 2 1 true true false false false false false getrfMemModel
    getrsMemModel ⟨fun a => ⟨a, [], []⟩, fun b _ => b, fun _ _ x => x⟩
    (⟨[1], [2], [3], [], [0]⟩ : GesvState (List Int))
    (⟨[1], [2], [3], [], [0]⟩ : GesvState (List Int))
    (by decide) (by decide) (by decide) (by decide) (by decide) (by decide)
  exact h

/-- C8: when the allocator fails, both the getrf and the getrs
strided-batched entry points return memory_error, never invoke their
template, and leave the device state unchanged: allocation failure is
detected before any device work. -/
theorem alloc_failure_before_any_work {σ τ : Type}
    (m n lda : Int) (pivot : Bool)
    (getrfMem : Int → Int → Bool → Int → Int → GetrfSizes)
    (tm1 : σ → rocblas_status × σ) (s1 : σ)
    (hm : 0 ≤ m) (hn : 0 ≤ n) (hlda : m ≤ lda)
    (argCk : rocblas_status) (sizes : List Nat)
    (tm2 : τ → rocblas_status × τ) (s2 : τ)
    (hck : argCk = rocblas_status.continue_status) :
    (rocsolver_getrf_impl false false false m n lda false false false pivot
          getrfMem tm1 s1).1.status = rocblas_status.memory_error
    ∧ (rocsolver_getrf_impl false false false m n lda false false false pivot
          getrfMem tm1 s1).1.executed = false
    ∧ (rocsolver_getrf_impl false false false m n lda false false false pivot
          getrfMem tm1 s1).2 = s1
    ∧ rocsolver_getrs_strided_batched_impl false argCk false false sizes tm2 s2
        = (⟨rocblas_status.memory_error, [], sizes, false⟩, s2) := by
  have hck1 : rocsolver_getf2_getrf_argCheck false m n lda false false false pivot
      = rocblas_status.continue_status := by
    unfold rocsolver_getf2_getrf_argCheck
    rw [if_neg (by omega)]
    simp
  subst hck
  refine ⟨?_, ?_, ?_, ?_⟩
  all_goals simp [rocsolver_getrf_impl, rocsolver_getrs_strided_batched_impl, hck1]

/-- Witness for C8 at m = n = lda = 1 and a passing getrs argument check. -/
theorem alloc_failure_before_any_work_witness :
    (rocsolver_getrf_impl false false false 1 1 1 false false false true
          (fun _ _ _ _ _ => ⟨1, 1, 1, 1, 1, 1, 1, 1, 1, true⟩)
          (fun s : Nat => (rocblas_status.success, s + 1)) 9).1.status
        = rocblas_status.memory_error
    ∧ rocsolver_getrs_strided_batched_impl false rocblas_status.continue_status
          false false [4, 4, 4, 4] (fun s : Nat => (rocblas_status.success, s + 1)) 7
        = (⟨rocblas_status.memory_error, [], [4, 4, 4, 4], false⟩, 7) := by
  have h := alloc_failure_before_any_work (σ := Nat) (τ := Nat) 1 1 1 true
    (fun _ _ _ _ _ => ⟨1, 1, 1, 1, 1, 1, 1, 1, 1, true⟩)
    (fun s => (rocblas_status.success, s + 1)) 9
    (by decide) (by decide) (by decide)
    rocblas_status.continue_status [4, 4, 4, 4]
    (fun s => (rocblas_status.success, s + 1)) 7 rfl
  exact ⟨h.1, h.2.2.2⟩

/-- C9: every entry point — getrf, getrs strided-batched, getri,
getri-outofplace strided-batched, and the (spec-modelled) gesv-outofplace
impl — returns invalid_handle on a null handle, with no sizes reported, no
allocation requested, no template execution and the device state unchanged,
regardless of every other argument (including the argument-check result, so
the handle check fires before any validation). -/
theorem null_handle_fails_fast {σ1 σ2 σ3 σ4 α : Type}
    (q1 a1 : Bool) (m n lda : Int) (anull pnull inull pivot : Bool)
    (f1 : Int → Int → Bool → Int → Int → GetrfSizes)
    (tm1 : σ1 → rocblas_status × σ1) (s1 : σ1)
    (ck2 : rocblas_status) (q2 a2 : Bool) (sz2 : List Nat)
    (tm2 : σ2 → rocblas_status × σ2) (s2 : σ2)
    (ck3 : rocblas_status) (q3 a3 : Bool) (sz3 : List Nat)
    (tm3 : σ3 → rocblas_status × σ3) (s3 : σ3)
    (ck4 : rocblas_status) (q4 a4 : Bool) (sz4 : List Nat)
    (tm4 : σ4 → rocblas_status × σ4) (s4 : σ4)
    (q5 a5 : Bool) (n5 nr5 lda5 ldb5 ldx5 bc5 : Int)
    (an5 bn5 xn5 pn5 fn5 : Bool)
    (f5 : Int → Int → Bool → Int → GetrfSizes)
    (g5 : BlasOperation → Int → Int → Int → GetrsSizes)
    (ops5 : GesvOps α) (s5 : GesvState α) :
    rocsolver_getrf_impl true q1 a1 m n lda anull pnull inull pivot f1 tm1 s1
        = (⟨rocblas_status.invalid_handle, [], [], false⟩, s1)
    ∧ rocsolver_getrs_strided_batched_impl true ck2 q2 a2 sz2 tm2 s2
        = (⟨rocblas_status.invalid_handle, [], [], false⟩, s2)
    ∧ rocsolver_getri_impl true ck3 q3 a3 sz3 tm3 s3
        = (⟨rocblas_status.invalid_handle, [], [], false⟩, s3)
    ∧ rocsolver_getri_outofplace_strided_batched_impl true ck4 q4 a4 sz4 tm4 s4
        = (⟨rocblas_status.invalid_handle, [], [], false⟩, s4)
    ∧ rocsolver_gesv_outofplace_impl true q5 a5 n5 nr5 lda5 ldb5 ldx5 bc5
          an5 bn5 xn5 pn5 fn5 f5 g5 ops5 s5
        = (⟨rocblas_status.invalid_handle, [], [], false⟩, s5) :=
  ⟨rfl, rfl, rfl, rfl, rfl⟩
